import Mathlib

set_option linter.unusedVariables false

/-!
Verification development for the replication-session lifecycle controller
(c4Replicator.hh).  The controller is shallowly embedded as a Lean state
machine: the object's fields become a structure, each member function
becomes a function from the state (plus the inputs the environment would
supply) to a new state together with a trace of observable events (lock
acquisition/release, requests sent to the engine, subclass hooks, client
callbacks).  Asynchronous engine callbacks are modelled as operations the
environment may invoke with an engine-instance identifier and a reported
status.  Machine integers (the status-flag bitset) are Nat with bitwise
operations; the 32-bit complement in setStatusFlag is written explicitly.
-/

set_option autoImplicit false

/-- Activity levels, in the numeric order of the C enum
C4ReplicatorActivityLevel: Stopped, Offline, Connecting, Idle, Busy. -/
inductive C4ReplicatorActivityLevel where
  | kC4Stopped
  | kC4Offline
  | kC4Connecting
  | kC4Idle
  | kC4Busy
deriving DecidableEq, Repr

/-- Numeric value of the level, used for the ordered comparisons in the
source (level >= kC4Connecting etc.). -/
def C4ReplicatorActivityLevel.toNat : C4ReplicatorActivityLevel → Nat
  | .kC4Stopped => 0
  | .kC4Offline => 1
  | .kC4Connecting => 2
  | .kC4Idle => 3
  | .kC4Busy => 4

/-- Status flag bit kC4WillRetry. -/
def kC4WillRetry : Nat := 1

/-- Status flag bit kC4HostReachable. -/
def kC4HostReachable : Nat := 2

/-- Status flag bit kC4Suspended. -/
def kC4Suspended : Nat := 4

/-- Mask of a 32-bit word, used for the C bitwise complement in
setStatusFlag (flags &= ~flag). -/
def MASK32 : Nat := 4294967295

/-- Progress counters of C4Progress. -/
structure C4Progress where
  unitsCompleted : Nat
  unitsTotal : Nat
deriving DecidableEq, Repr

/-- Error value (domain, code); code 0 means no error. -/
structure C4Error where
  domain : Nat
  code : Nat
deriving DecidableEq, Repr

/-- StatusRecord: level, progress, error and the flag bitset. -/
structure C4ReplicatorStatus where
  level : C4ReplicatorActivityLevel
  progress : C4Progress
  error : C4Error
  flags : Nat
deriving DecidableEq, Repr

/-- Replication modes of C4ReplicatorMode. -/
inductive C4ReplicatorMode where
  | kC4Disabled
  | kC4Passive
  | kC4OneShot
  | kC4Continuous
deriving DecidableEq, Repr

/-- Property dictionary (AllocedDict): modelled as an association list. -/
def AllocedDict : Type := List (Nat × Nat)

instance : DecidableEq AllocedDict := by
  unfold AllocedDict
  infer_instance

/-- Replicator options: modes, property map and the opaque
callback-context token passed to every client callback. -/
structure ReplOptions where
  push : C4ReplicatorMode
  pull : C4ReplicatorMode
  properties : AllocedDict
  callbackContext : Nat
deriving DecidableEq

/-- Construction parameters (C4ReplicatorParameters): options data plus
which of the three client callbacks are supplied (a callback reference is
modelled by whether the slot is non-null). -/
structure C4ReplicatorParameters where
  push : C4ReplicatorMode
  pull : C4ReplicatorMode
  properties : AllocedDict
  callbackContext : Nat
  onStatusChanged : Bool
  onDocumentsEnded : Bool
  onBlobProgress : Bool
deriving DecidableEq

/-- Direction of a replicated revision. -/
inductive Dir where
  | kPulling
  | kPushing
deriving DecidableEq, Repr

/-- One per-revision outcome (ReplicatedRev): its direction and the
document-ended record it converts to (modelled as an identifier). -/
structure ReplicatedRev where
  dir : Dir
  docEnded : Nat
deriving DecidableEq, Repr

/-- Conversion rev->asDocumentEnded(). -/
def ReplicatedRev.asDocumentEnded (rev : ReplicatedRev) : Nat := rev.docEnded

/-- Observable events emitted while an operation runs, in program order. -/
inductive Event where
  | lockAcquire
  | lockRelease
  | engineCreate (id : Nat)
  | engineStart (id : Nat)
  | engineStopRequest (id : Nat)
  | engineTerminate (id : Nat)
  | handleConnected
  | handleStopped
  | clientStatusCallback (st : C4ReplicatorStatus)
  | clientDocsEndedCallback (pushing : Bool) (docsEnded : List Nat) (context : Nat)
  | clientBlobCallback (pushing : Bool) (context : Nat)
  | releaseSelfRetain
deriving DecidableEq, Repr

/-- Controller state: the fields of struct C4Replicator.  The engine
reference is an optional instance identifier (fresh identifiers come from
the nextEngineId counter, a modelling device standing for pointer
identity of Retained Replicator instances); selfRetain models the
single nullable Retained self-reference; the three callback slots record
whether each client callback is set. -/
structure C4Replicator where
  database : Nat
  options : ReplOptions
  replicator : Option Nat
  nextEngineId : Nat
  status : C4ReplicatorStatus
  activeWhenSuspended : Bool
  responseHeaders : Option Nat
  selfRetain : Bool
  onStatusChanged : Bool
  onDocumentsEnded : Bool
  onBlobProgress : Bool
deriving DecidableEq

namespace C4Replicator

/-- Constructor: copies params into the options and callback slots;
status is zero-initialized at kC4Stopped and then flags gets
kC4HostReachable or-ed in. -/
def create (db : Nat) (params : C4ReplicatorParameters) : C4Replicator :=
  { database := db
    options := { push := params.push, pull := params.pull,
                 properties := params.properties,
                 callbackContext := params.callbackContext }
    replicator := none
    nextEngineId := 0
    status := { level := .kC4Stopped, progress := ⟨0, 0⟩,
                error := ⟨0, 0⟩, flags := 0 ||| kC4HostReachable }
    activeWhenSuspended := false
    responseHeaders := none
    selfRetain := false
    onStatusChanged := params.onStatusChanged
    onDocumentsEnded := params.onDocumentsEnded
    onBlobProgress := params.onBlobProgress }

/-- Member statusFlag: (status.flags & flag) != 0. -/
def statusFlag (s : C4Replicator) (flag : Nat) : Bool :=
  (s.status.flags &&& flag) != 0

/-- Member setStatusFlag on the status record: sets or clears the bit and
reports whether the flags changed. -/
def setStatusFlag (st : C4ReplicatorStatus) (flag : Nat) (isOn : Bool) :
    C4ReplicatorStatus × Bool :=
  let flags := st.flags
  let flags2 := if isOn then flags ||| flag else flags &&& (MASK32 ^^^ flag)
  if flags2 = flags then (st, false)
  else ({ st with flags := flags2 }, true)

/-- Member updateStatusFromReplicator: copies the whole engine-reported
status and then restores the controller-owned flags. -/
def updateStatusFromReplicator (st : C4ReplicatorStatus)
    (status : C4ReplicatorStatus) : C4ReplicatorStatus :=
  { status with flags := st.flags }

/-- Member continuous(). -/
def continuous (s : C4Replicator) : Bool :=
  s.options.push == .kC4Continuous || s.options.pull == .kC4Continuous

/-- Events emitted by notifyStateChanged: the client status callback is
invoked (with the current status and, in the source, the callback
context) exactly when the onStatusChanged slot is non-null. -/
def notifyStateChanged (st : C4ReplicatorStatus) (slotSet : Bool) : List Event :=
  if slotSet then [Event.clientStatusCallback st] else []

/-- Member _start (called with the mutex held): creates the engine
instance if absent, acquires the self-retention, copies the fresh
engine's initial status (engStatus models _replicator->status()), clears
the cached response headers, and asks the engine to start. -/
def _start (engStatus : C4ReplicatorStatus) (s : C4Replicator) :
    C4Replicator × List Event :=
  let created :=
    match s.replicator with
    | none => ({ s with replicator := some s.nextEngineId,
                        nextEngineId := s.nextEngineId + 1 },
               [Event.engineCreate s.nextEngineId])
    | some _ => (s, ([] : List Event))
  let s1 := created.1
  let rid := s1.replicator.getD 0
  let s2 := { s1 with selfRetain := true,
                      status := updateStatusFromReplicator s1.status engStatus,
                      responseHeaders := none }
  (s2, created.2 ++ [Event.engineStart rid])

/-- Member start(): locks, and calls _start only when no engine instance
exists. -/
def start (engStatus : C4ReplicatorStatus) (s : C4Replicator) :
    C4Replicator × List Event :=
  match s.replicator with
  | some _ => (s, [Event.lockAcquire, Event.lockRelease])
  | none =>
      let r := _start engStatus s
      (r.1, Event.lockAcquire :: r.2 ++ [Event.lockRelease])

/-- Member stop(): locks; with a live engine, forwards the stop request;
with no engine and a non-Stopped level, goes directly to Stopped, clears
progress, calls notifyStateChanged (still inside the LOCK scope) and
releases the self-retention; otherwise does nothing. -/
def stop (s : C4Replicator) : C4Replicator × List Event :=
  match s.replicator with
  | some r => (s, [Event.lockAcquire, Event.engineStopRequest r, Event.lockRelease])
  | none =>
      if s.status.level ≠ .kC4Stopped then
        let s1 := { s with
          status := { s.status with level := .kC4Stopped, progress := ⟨0, 0⟩ },
          selfRetain := false }
        (s1, Event.lockAcquire ::
              (notifyStateChanged s1.status s1.onStatusChanged ++
               [Event.releaseSelfRetain, Event.lockRelease]))
      else (s, [Event.lockAcquire, Event.lockRelease])

/-- Member setProperties: locks and assigns the options' property map. -/
def setProperties (properties : AllocedDict) (s : C4Replicator) :
    C4Replicator × List Event :=
  ({ s with options := { s.options with properties := properties } },
   [Event.lockAcquire, Event.lockRelease])

/-- Member setHostReachable: the base-class body is empty. -/
def setHostReachable (reachable : Bool) (s : C4Replicator) :
    C4Replicator × List Event :=
  (s, [])

/-- Member _suspend (called with the mutex held): forwards a stop request
to the engine if one exists. -/
def _suspend (s : C4Replicator) : List Event :=
  match s.replicator with
  | some r => [Event.engineStopRequest r]
  | none => []

/-- Member _unsuspend (called with the mutex held): restarts via _start. -/
def _unsuspend (engStatus : C4ReplicatorStatus) (s : C4Replicator) :
    C4Replicator × List Event :=
  _start engStatus s

/-- Member setSuspended: locks, toggles the Suspended flag (early return
when unchanged); on suspend records whether the session was active and if
so asks the engine to stop; on un-suspend restarts when Offline and
previously active.  engStatus models the fresh engine's initial status on
the resume path. -/
def setSuspended (suspended : Bool) (engStatus : C4ReplicatorStatus)
    (s : C4Replicator) : C4Replicator × List Event :=
  let sf := setStatusFlag s.status kC4Suspended suspended
  if sf.2 = false then (s, [Event.lockAcquire, Event.lockRelease])
  else
    let s1 := { s with status := sf.1 }
    if suspended then
      let awc := decide (C4ReplicatorActivityLevel.kC4Connecting.toNat ≤ s1.status.level.toNat)
      let s2 := { s1 with activeWhenSuspended := awc }
      if awc then
        (s2, Event.lockAcquire :: (_suspend s2 ++ [Event.lockRelease]))
      else
        (s2, [Event.lockAcquire, Event.lockRelease])
    else
      if s1.status.level = .kC4Offline ∧ s1.activeWhenSuspended then
        let r := _unsuspend engStatus s1
        (r.1, Event.lockAcquire :: (r.2 ++ [Event.lockRelease]))
      else (s1, [Event.lockAcquire, Event.lockRelease])

/-- Member detach: locks and clears the three callback slots. -/
def detach (s : C4Replicator) : C4Replicator × List Event :=
  ({ s with onStatusChanged := false, onDocumentsEnded := false,
            onBlobProgress := false },
   [Event.lockAcquire, Event.lockRelease])

/-- Delegate method replicatorGotHTTPResponse: under lock, when the
report comes from the current engine instance, captures the encoded
headers (the source asserts the slot was empty). -/
def replicatorGotHTTPResponse (repl : Nat) (headers : Nat)
    (s : C4Replicator) : C4Replicator × List Event :=
  if s.replicator = some repl then
    ({ s with responseHeaders := some headers },
     [Event.lockAcquire, Event.lockRelease])
  else (s, [Event.lockAcquire, Event.lockRelease])

/-- Locked section of replicatorStatusChanged, reached only when the
report comes from the current engine instance: copies level, progress and
error from the report; fires the connected hook on the crossing of
Connecting; on Stopped terminates and drops the engine and either
substitutes Offline (when Suspended) or runs the stopped hook (a no-op in
the base class).  Returns the state after the locked section, the events
emitted inside the lock, and the local flag stopped. -/
def statusChangedLocked (repl : Nat) (newStatus : C4ReplicatorStatus)
    (s : C4Replicator) : C4Replicator × List Event × Bool :=
  let oldLevel := s.status.level
  let s1 := { s with status := updateStatusFromReplicator s.status newStatus }
  let connEvents :=
    if C4ReplicatorActivityLevel.kC4Connecting.toNat < s1.status.level.toNat ∧
       oldLevel.toNat ≤ C4ReplicatorActivityLevel.kC4Connecting.toNat
    then [Event.handleConnected] else []
  let afterStop :=
    if s1.status.level = .kC4Stopped then
      let s2 := { s1 with replicator := none }
      if s2.statusFlag kC4Suspended then
        ({ s2 with status := { s2.status with level := .kC4Offline } },
         [Event.engineTerminate repl])
      else
        (s2, [Event.engineTerminate repl, Event.handleStopped])
    else (s1, ([] : List Event))
  let s3 := afterStop.1
  (s3, connEvents ++ afterStop.2, s3.status.level = .kC4Stopped)

/-- Delegate method replicatorStatusChanged: under lock, ignores stale
engine instances; otherwise runs the locked section, then releases the
lock, then notifies the client, then releases the self-retention exactly
when the final published level is Stopped. -/
def replicatorStatusChanged (repl : Nat) (newStatus : C4ReplicatorStatus)
    (s : C4Replicator) : C4Replicator × List Event :=
  if s.replicator = some repl then
    let r := statusChangedLocked repl newStatus s
    let s2 := r.1
    let stopped := r.2.2
    let s3 := if stopped then { s2 with selfRetain := false } else s2
    (s3, Event.lockAcquire :: r.2.1 ++ [Event.lockRelease] ++
          notifyStateChanged s2.status s2.onStatusChanged ++
          (if stopped then [Event.releaseSelfRetain] else []))
  else (s, [Event.lockAcquire, Event.lockRelease])

/-- Delegate method replicatorDocumentsEnded: takes no lock; ignores
stale engine instances; loops pushing = 0 then pushing = 1, collecting
the revisions whose (dir == kPushing) equals pushing, and invokes the
documents-ended callback once per non-empty collection with the converted
records and the callback-context token. -/
def replicatorDocumentsEnded (repl : Nat) (revs : List ReplicatedRev)
    (s : C4Replicator) : List Event :=
  if s.replicator = some repl then
    let emit := fun (pushing : Bool) =>
      let docsEnded :=
        (revs.filter (fun rev => (rev.dir == Dir.kPushing) == pushing)).map
          ReplicatedRev.asDocumentEnded
      if docsEnded ≠ [] ∧ s.onDocumentsEnded then
        [Event.clientDocsEndedCallback pushing docsEnded s.options.callbackContext]
      else []
    emit false ++ emit true
  else []

/-- Delegate method replicatorBlobProgress: takes no lock; ignores stale
engine instances; forwards to the blob callback when set. -/
def replicatorBlobProgress (repl : Nat) (pushing : Bool)
    (s : C4Replicator) : List Event :=
  if s.replicator = some repl then
    if s.onBlobProgress then
      [Event.clientBlobCallback pushing s.options.callbackContext]
    else []
  else []

/-- Member pendingDocumentIDs: queries the live engine when present, else
a transient checkpointer; the underlying query either fails (setting the
error out-parameter) or yields the list of pending document IDs fed to
the encoding callback.  Returns the encoded slice (none when the query
failed, and also when it succeeded with no documents, since any stays
false) together with the error out-parameter. -/
def pendingDocumentIDs (s : C4Replicator)
    (replResult chkptResult : Except C4Error (List Nat)) :
    Option (List Nat) × Option C4Error :=
  let res :=
    match s.replicator with
    | some _ => replResult
    | none => chkptResult
  match res with
  | .error e => (none, some e)
  | .ok docs => (if docs.isEmpty then none else some docs, none)

end C4Replicator

/-- Does this event invoke the client status-changed callback? -/
def Event.isStatusCallback : Event → Bool
  | .clientStatusCallback _ => true
  | _ => false

/-- Number of client status-changed callback invocations in a trace. -/
def countStatusCallbacks (tr : List Event) : Nat :=
  (tr.filter Event.isStatusCallback).length

/-- Scans a trace keeping the mutex depth and reports whether some client
status-changed callback is invoked while the mutex is held. -/
def callbackUnderLock : List Event → Nat → Bool
  | [], _ => false
  | Event.lockAcquire :: rest, d => callbackUnderLock rest (d + 1)
  | Event.lockRelease :: rest, d => callbackUnderLock rest (d - 1)
  | Event.clientStatusCallback _ :: rest, d =>
      decide (0 < d) || callbackUnderLock rest d
  | _ :: rest, d => callbackUnderLock rest d

/-- States reachable by any sequence of controller operations and engine
delegate events, from a freshly constructed controller.  The engine
delegate events may report any engine identifier (stale or current) and
any status. -/
inductive Reachable : C4Replicator → Prop where
  | create (db : Nat) (params : C4ReplicatorParameters) :
      Reachable (C4Replicator.create db params)
  | start (engStatus : C4ReplicatorStatus) (s : C4Replicator) :
      Reachable s → Reachable (C4Replicator.start engStatus s).1
  | stop (s : C4Replicator) :
      Reachable s → Reachable (C4Replicator.stop s).1
  | setProperties (properties : AllocedDict) (s : C4Replicator) :
      Reachable s → Reachable (C4Replicator.setProperties properties s).1
  | setHostReachable (reachable : Bool) (s : C4Replicator) :
      Reachable s → Reachable (C4Replicator.setHostReachable reachable s).1
  | setSuspended (suspended : Bool) (engStatus : C4ReplicatorStatus)
      (s : C4Replicator) :
      Reachable s → Reachable (C4Replicator.setSuspended suspended engStatus s).1
  | detach (s : C4Replicator) :
      Reachable s → Reachable (C4Replicator.detach s).1
  | gotHTTPResponse (repl headers : Nat) (s : C4Replicator) :
      Reachable s → Reachable (C4Replicator.replicatorGotHTTPResponse repl headers s).1
  | statusChanged (repl : Nat) (newStatus : C4ReplicatorStatus) (s : C4Replicator) :
      Reachable s → Reachable (C4Replicator.replicatorStatusChanged repl newStatus s).1

/-- Spec-side definition of the incoming partition of a completion batch:
the pulled revisions, in order, converted to document-ended records. -/
def incomingPartition (revs : List ReplicatedRev) : List Nat :=
  (revs.filter (fun rev => rev.dir = Dir.kPulling)).map ReplicatedRev.asDocumentEnded

/-- Spec-side definition of the outgoing partition of a completion batch:
the pushed revisions, in order, converted to document-ended records. -/
def outgoingPartition (revs : List ReplicatedRev) : List Nat :=
  (revs.filter (fun rev => rev.dir = Dir.kPushing)).map ReplicatedRev.asDocumentEnded

/-- Construction parameters used by the concrete scenarios: continuous
push, all three callbacks registered, callback-context token 7. -/
def paramsEx : C4ReplicatorParameters :=
  { push := .kC4Continuous, pull := .kC4Disabled, properties := [],
    callbackContext := 7, onStatusChanged := true, onDocumentsEnded := true,
    onBlobProgress := true }

/-- Engine-reported status at level Connecting. -/
def stConnectingEx : C4ReplicatorStatus :=
  { level := .kC4Connecting, progress := ⟨0, 0⟩, error := ⟨0, 0⟩, flags := 0 }

/-- Engine-reported status at level Busy with progress 5 of 10. -/
def stBusyEx : C4ReplicatorStatus :=
  { level := .kC4Busy, progress := ⟨5, 10⟩, error := ⟨0, 0⟩, flags := 0 }

/-- Engine-reported status at level Stopped. -/
def stStoppedEx : C4ReplicatorStatus :=
  { level := .kC4Stopped, progress := ⟨10, 10⟩, error := ⟨0, 0⟩, flags := 0 }

/-- Freshly constructed controller. -/
def ctorEx : C4Replicator := C4Replicator.create 0 paramsEx

/-- Controller after start(): engine instance 0 live, self-retained. -/
def startedEx : C4Replicator := (C4Replicator.start stConnectingEx ctorEx).1

/-- Controller after engine 0 reported Busy. -/
def busyEx : C4Replicator :=
  (C4Replicator.replicatorStatusChanged 0 stBusyEx startedEx).1

/-- Controller after setSuspended(true) while Busy: Suspended flag set,
activeWhenSuspended recorded, stop request sent to the engine. -/
def suspendedEx : C4Replicator :=
  (C4Replicator.setSuspended true stConnectingEx busyEx).1

/-- Result of engine 0 then reporting Stopped while suspended: the
Offline-via-suspend transition. -/
def offlineViaSuspendEx : C4Replicator × List Event :=
  C4Replicator.replicatorStatusChanged 0 stStoppedEx suspendedEx

/-- Controller with no engine instance, level Busy, callbacks registered:
the state exercising the direct-to-Stopped path of stop(). -/
def noEngineBusyEx : C4Replicator :=
  { ctorEx with status := { ctorEx.status with level := .kC4Busy } }

/-- Completion batch holding one pulled and one pushed revision. -/
def revsEx : List ReplicatedRev := [⟨Dir.kPulling, 11⟩, ⟨Dir.kPushing, 22⟩]

/-- Helper: _start always leaves a live engine reference. -/
theorem _start_replicator_ne_none (engStatus : C4ReplicatorStatus) (s : C4Replicator) :
    (C4Replicator._start engStatus s).1.replicator ≠ none := by
  unfold C4Replicator._start
  cases h : s.replicator <;> simp [h]

/-- Helper: setStatusFlag touches only the flags field. -/
theorem setStatusFlag_fst_level (st : C4ReplicatorStatus) (flag : Nat) (b : Bool) :
    (C4Replicator.setStatusFlag st flag b).1.level = st.level := by
  unfold C4Replicator.setStatusFlag
  dsimp only
  split <;> split <;> rfl

/-- Helper: start() either leaves the state unchanged or leaves an engine
reference live. -/
theorem start_structure (engStatus : C4ReplicatorStatus) (s : C4Replicator) :
    (C4Replicator.start engStatus s).1 = s ∨
    (C4Replicator.start engStatus s).1.replicator ≠ none := by
  unfold C4Replicator.start
  cases h : s.replicator with
  | some r => left; rfl
  | none => right; dsimp only; exact _start_replicator_ne_none engStatus s

/-- Helper: stop() either leaves the state unchanged or clears the
self-retention. -/
theorem stop_structure (s : C4Replicator) :
    (C4Replicator.stop s).1 = s ∨ (C4Replicator.stop s).1.selfRetain = false := by
  unfold C4Replicator.stop
  cases h : s.replicator with
  | some r => left; rfl
  | none =>
      by_cases hl : s.status.level = .kC4Stopped
      · left; simp [hl]
      · right; simp [hl]

/-- Helper: setSuspended either preserves the self-retention, the engine
reference and the level, or leaves an engine reference live (resume). -/
theorem setSuspended_structure (b : Bool) (engStatus : C4ReplicatorStatus)
    (s : C4Replicator) :
    ((C4Replicator.setSuspended b engStatus s).1.selfRetain = s.selfRetain ∧
     (C4Replicator.setSuspended b engStatus s).1.replicator = s.replicator ∧
     (C4Replicator.setSuspended b engStatus s).1.status.level = s.status.level) ∨
    (C4Replicator.setSuspended b engStatus s).1.replicator ≠ none := by
  unfold C4Replicator.setSuspended
  dsimp only
  split
  · left; exact ⟨rfl, rfl, rfl⟩
  · split
    · split
      · left; exact ⟨rfl, rfl, setStatusFlag_fst_level s.status kC4Suspended b⟩
      · left; exact ⟨rfl, rfl, setStatusFlag_fst_level s.status kC4Suspended b⟩
    · split
      · right
        exact _start_replicator_ne_none engStatus _
      · left; exact ⟨rfl, rfl, setStatusFlag_fst_level s.status kC4Suspended b⟩

/-- Helper: replicatorGotHTTPResponse preserves the self-retention, the
engine reference and the status. -/
theorem gotHTTPResponse_structure (repl headers : Nat) (s : C4Replicator) :
    (C4Replicator.replicatorGotHTTPResponse repl headers s).1.selfRetain = s.selfRetain ∧
    (C4Replicator.replicatorGotHTTPResponse repl headers s).1.replicator = s.replicator ∧
    (C4Replicator.replicatorGotHTTPResponse repl headers s).1.status = s.status := by
  unfold C4Replicator.replicatorGotHTTPResponse
  split <;> exact ⟨rfl, rfl, rfl⟩

/-- Helper: replicatorStatusChanged either leaves the state unchanged
(stale engine) or guarantees the self-retention is clear whenever the
resulting level is Stopped. -/
theorem statusChanged_structure (repl : Nat) (newStatus : C4ReplicatorStatus)
    (s : C4Replicator) :
    (C4Replicator.replicatorStatusChanged repl newStatus s).1 = s ∨
    ((C4Replicator.replicatorStatusChanged repl newStatus s).1.status.level = .kC4Stopped →
     (C4Replicator.replicatorStatusChanged repl newStatus s).1.selfRetain = false) := by
  unfold C4Replicator.replicatorStatusChanged
  by_cases h : s.replicator = some repl
  · right
    simp only [h, if_true]
    by_cases hstop : (C4Replicator.statusChangedLocked repl newStatus s).2.2 = true
    · simp only [hstop, if_true]
      exact fun _ => trivial
    · simp only [hstop, if_false]
      intro hl
      exfalso
      apply hstop
      unfold C4Replicator.statusChangedLocked at hl ⊢
      dsimp only at hl ⊢
      simp only [decide_eq_true_eq]
      exact hl
  · left; simp [h]

/-- C1 (amended): in every reachable controller state, the single
nullable self-retention is clear whenever the published level is Stopped
and no engine reference is held.  (The original claim also demanded a
clear self-retention after an Offline-via-suspend state with no engine
reference; the code keeps the retention there, see the counterexample.) -/
theorem selfRetain_zero_at_published_stop (s : C4Replicator) (hr : Reachable s) :
    s.status.level = .kC4Stopped → s.replicator = none → s.selfRetain = false := by
  induction hr with
  | create db params => intro _ _; rfl
  | start engStatus s hs ih =>
      rcases start_structure engStatus s with e | hne
      · rw [e]; exact ih
      · intro _ h2; exact absurd h2 hne
  | stop s hs ih =>
      rcases stop_structure s with e | hfalse
      · rw [e]; exact ih
      · intro _ _; exact hfalse
  | setProperties properties s hs ih => exact ih
  | setHostReachable reachable s hs ih => exact ih
  | setSuspended suspended engStatus s hs ih =>
      rcases setSuspended_structure suspended engStatus s with ⟨e1, e2, e3⟩ | hne
      · intro h1 h2
        rw [e1]
        exact ih (by rw [← e3]; exact h1) (by rw [← e2]; exact h2)
      · intro _ h2; exact absurd h2 hne
  | detach s hs ih => exact ih
  | gotHTTPResponse repl headers s hs ih =>
      rcases gotHTTPResponse_structure repl headers s with ⟨e1, e2, e3⟩
      intro h1 h2
      rw [e1]
      exact ih (by rw [← e3]; exact h1) (by rw [← e2]; exact h2)
  | statusChanged repl newStatus s hs ih =>
      rcases statusChanged_structure repl newStatus s with e | himp
      · rw [e]; exact ih
      · intro h1 _; exact himp h1

/-- C1 (counterexample): after start, engine Busy, setSuspended(true) and
the suspended engine instance reporting Stopped, the controller has
published Offline-via-suspend with no engine reference held, yet the
self-retention is still outstanding. -/
theorem selfRetain_held_after_offline_via_suspend :
    offlineViaSuspendEx.1.status.level = .kC4Offline ∧
    offlineViaSuspendEx.1.statusFlag kC4Suspended = true ∧
    offlineViaSuspendEx.1.replicator = none ∧
    Event.clientStatusCallback offlineViaSuspendEx.1.status ∈ offlineViaSuspendEx.2 ∧
    offlineViaSuspendEx.1.selfRetain = true := by
  decide

/-- C1 (witness): the invariant applied to the freshly constructed
controller, which is at level Stopped with no engine reference. -/
theorem selfRetain_zero_at_published_stop_witness : (C4Replicator.create 0 paramsEx).selfRetain = false :=
  selfRetain_zero_at_published_stop (C4Replicator.create 0 paramsEx)
    (Reachable.create 0 paramsEx) rfl rfl

/-- C2 (counterexample): for a batch with one pulled and one pushed
revision, the handler dispatches the incoming (pushing = false) partition
first and the outgoing (pushing = true) partition second, refuting the
claimed outgoing-then-incoming order. -/
theorem documentsEnded_incoming_dispatched_first :
    C4Replicator.replicatorDocumentsEnded 0 revsEx startedEx =
      [Event.clientDocsEndedCallback false [11] 7,
       Event.clientDocsEndedCallback true [22] 7] := by
  decide

/-- C2 (amended): for a batch from the current engine instance with the
documents-ended callback registered, the handler partitions the batch by
direction preserving relative order, invokes the callback exactly once
per non-empty partition with that partition and the fixed
callback-context token, and dispatches incoming-then-outgoing. -/
theorem documentsEnded_partition_dispatch (repl : Nat) (revs : List ReplicatedRev) (s : C4Replicator)
    (h1 : s.replicator = some repl) (h2 : s.onDocumentsEnded = true) :
    C4Replicator.replicatorDocumentsEnded repl revs s =
      (if incomingPartition revs ≠ [] then
        [Event.clientDocsEndedCallback false (incomingPartition revs)
          s.options.callbackContext] else []) ++
      (if outgoingPartition revs ≠ [] then
        [Event.clientDocsEndedCallback true (outgoingPartition revs)
          s.options.callbackContext] else []) := by
  have hpull : revs.filter (fun rev => (rev.dir == Dir.kPushing) == false) =
      revs.filter (fun rev => rev.dir = Dir.kPulling) := by
    apply List.filter_congr
    intro x _
    obtain ⟨d, i⟩ := x
    cases d <;> rfl
  have hpush : revs.filter (fun rev => (rev.dir == Dir.kPushing) == true) =
      revs.filter (fun rev => rev.dir = Dir.kPushing) := by
    apply List.filter_congr
    intro x _
    obtain ⟨d, i⟩ := x
    cases d <;> rfl
  unfold C4Replicator.replicatorDocumentsEnded incomingPartition outgoingPartition
  simp only [h1, if_true, h2, and_true, hpull, hpush]

/-- C3 (counterexample): on a freshly constructed controller, whose
HostReachable flag is set, setHostReachable(false) leaves the flag set,
refuting the claim that every call updates the flag to its argument. -/
theorem setHostReachable_leaves_flag_set :
    C4Replicator.statusFlag (C4Replicator.setHostReachable false ctorEx).1
      kC4HostReachable = true := by
  decide

/-- C3 (amended): the base-class setHostReachable is a no-op in every
controller state: it leaves the whole state unchanged (the HostReachable
flag included) and emits no event. -/
theorem setHostReachable_base_noop (reachable : Bool) (s : C4Replicator) :
    C4Replicator.setHostReachable reachable s = (s, []) := rfl

/-- C4 (code bug): on the direct-to-Stopped path of stop() (no engine
instance, level Busy, status-changed callback registered) the client
status-changed callback is invoked while the mutex is held, contradicting
the source comment on notifyStateChanged that the mutex MUST NOT be
locked there. -/
theorem stop_invokes_callback_under_lock :
    callbackUnderLock (C4Replicator.stop noEngineBusyEx).2 0 = true := by
  decide

/-- C8: updateStatusFromReplicator copies exactly level, progress and
error from the engine-reported status and keeps the previous flags. -/
theorem updateStatusFromReplicator_preserves_flags (old new : C4ReplicatorStatus) :
    C4Replicator.updateStatusFromReplicator old new =
      { level := new.level, progress := new.progress,
        error := new.error, flags := old.flags } := rfl

/-- C10: setProperties unconditionally replaces the options property map
in every controller state and leaves every other component of the state
unchanged, emitting no callback and no failure. -/
theorem setProperties_replaces_properties_only (properties : AllocedDict) (s : C4Replicator) :
    (C4Replicator.setProperties properties s).1.options.properties = properties ∧
    (C4Replicator.setProperties properties s).1.options.push = s.options.push ∧
    (C4Replicator.setProperties properties s).1.options.pull = s.options.pull ∧
    (C4Replicator.setProperties properties s).1.options.callbackContext
      = s.options.callbackContext ∧
    (C4Replicator.setProperties properties s).1.status = s.status ∧
    (C4Replicator.setProperties properties s).1.replicator = s.replicator ∧
    (C4Replicator.setProperties properties s).1.selfRetain = s.selfRetain ∧
    (C4Replicator.setProperties properties s).1.activeWhenSuspended
      = s.activeWhenSuspended ∧
    (C4Replicator.setProperties properties s).1.responseHeaders = s.responseHeaders ∧
    (C4Replicator.setProperties properties s).1.nextEngineId = s.nextEngineId ∧
    (C4Replicator.setProperties properties s).1.database = s.database ∧
    (C4Replicator.setProperties properties s).1.onStatusChanged = s.onStatusChanged ∧
    (C4Replicator.setProperties properties s).1.onDocumentsEnded = s.onDocumentsEnded ∧
    (C4Replicator.setProperties properties s).1.onBlobProgress = s.onBlobProgress ∧
    (C4Replicator.setProperties properties s).2 = [Event.lockAcquire, Event.lockRelease] :=
  ⟨rfl, rfl, rfl, rfl, rfl, rfl, rfl, rfl, rfl, rfl, rfl, rfl, rfl, rfl, rfl⟩

/-- Helper: a status report from a stale engine instance is dropped. -/
theorem statusChanged_stale (repl : Nat) (newStatus : C4ReplicatorStatus)
    (s : C4Replicator) (h : s.replicator ≠ some repl) :
    C4Replicator.replicatorStatusChanged repl newStatus s =
      (s, [Event.lockAcquire, Event.lockRelease]) := by
  unfold C4Replicator.replicatorStatusChanged
  simp [h]

/-- Helper: exact behavior of replicatorStatusChanged when the current
engine reports Stopped while the Suspended flag is set: terminate and
drop the engine, substitute Offline, notify, keep the self-retention. -/
theorem statusChanged_stopped_suspended (repl : Nat) (newStatus : C4ReplicatorStatus)
    (s : C4Replicator) (hrep : s.replicator = some repl)
    (hlvl : newStatus.level = .kC4Stopped)
    (hsusp : s.statusFlag kC4Suspended = true) :
    C4Replicator.replicatorStatusChanged repl newStatus s =
      ({ s with
          status := { level := .kC4Offline, progress := newStatus.progress,
                      error := newStatus.error, flags := s.status.flags },
          replicator := none },
       [Event.lockAcquire, Event.engineTerminate repl, Event.lockRelease] ++
        C4Replicator.notifyStateChanged
          { level := .kC4Offline, progress := newStatus.progress,
            error := newStatus.error, flags := s.status.flags }
          s.onStatusChanged) := by
  unfold C4Replicator.replicatorStatusChanged C4Replicator.statusChangedLocked
    C4Replicator.updateStatusFromReplicator
  unfold C4Replicator.statusFlag at hsusp ⊢
  simp only [hrep, if_true, hlvl]
  simp [hsusp, hlvl]
  intro hcon
  exact absurd hcon (by decide)

/-- Helper: exact behavior of replicatorStatusChanged when the current
engine reports Stopped with Suspended clear: terminate and drop the
engine, run the stopped hook, notify, then release the self-retention. -/
theorem statusChanged_stopped_notSuspended (repl : Nat) (newStatus : C4ReplicatorStatus)
    (s : C4Replicator) (hrep : s.replicator = some repl)
    (hlvl : newStatus.level = .kC4Stopped)
    (hsusp : s.statusFlag kC4Suspended = false) :
    C4Replicator.replicatorStatusChanged repl newStatus s =
      ({ s with
          status := { level := .kC4Stopped, progress := newStatus.progress,
                      error := newStatus.error, flags := s.status.flags },
          replicator := none, selfRetain := false },
       [Event.lockAcquire, Event.engineTerminate repl, Event.handleStopped,
        Event.lockRelease] ++
        C4Replicator.notifyStateChanged
          { level := .kC4Stopped, progress := newStatus.progress,
            error := newStatus.error, flags := s.status.flags }
          s.onStatusChanged ++ [Event.releaseSelfRetain]) := by
  unfold C4Replicator.replicatorStatusChanged C4Replicator.statusChangedLocked
    C4Replicator.updateStatusFromReplicator
  unfold C4Replicator.statusFlag at hsusp ⊢
  simp only [hrep, if_true, hlvl]
  simp [hsusp, hlvl]
  intro hcon
  exact absurd hcon (by decide)

/-- Helper: exact behavior of replicatorStatusChanged when the current
engine reports a non-Stopped level. -/
theorem statusChanged_notStopped (repl : Nat) (newStatus : C4ReplicatorStatus)
    (s : C4Replicator) (hrep : s.replicator = some repl)
    (hlvl : newStatus.level ≠ .kC4Stopped) :
    C4Replicator.replicatorStatusChanged repl newStatus s =
      ({ s with
          status := { level := newStatus.level, progress := newStatus.progress,
                      error := newStatus.error, flags := s.status.flags } },
       Event.lockAcquire ::
        (if C4ReplicatorActivityLevel.kC4Connecting.toNat < newStatus.level.toNat ∧
            s.status.level.toNat ≤ C4ReplicatorActivityLevel.kC4Connecting.toNat
         then [Event.handleConnected] else []) ++
        [Event.lockRelease] ++
        C4Replicator.notifyStateChanged
          { level := newStatus.level, progress := newStatus.progress,
            error := newStatus.error, flags := s.status.flags }
          s.onStatusChanged) := by
  unfold C4Replicator.replicatorStatusChanged C4Replicator.statusChangedLocked
    C4Replicator.updateStatusFromReplicator
  simp only [hrep, if_true]
  simp [hlvl]

/-- C5: when the current engine instance reports Stopped, the controller
drops the engine reference and terminates the instance; if the Suspended
flag is set the resulting level is Offline and the stopped hook does not
fire; otherwise the stopped hook fires, and it does so in a trace segment
strictly before any client status notification. -/
theorem stoppedReport_teardown_and_hooks (repl : Nat) (newStatus : C4ReplicatorStatus)
    (s : C4Replicator) (hrep : s.replicator = some repl)
    (hlvl : newStatus.level = .kC4Stopped) :
    (C4Replicator.replicatorStatusChanged repl newStatus s).1.replicator = none ∧
    Event.engineTerminate repl ∈ (C4Replicator.replicatorStatusChanged repl newStatus s).2 ∧
    (s.statusFlag kC4Suspended = true →
      (C4Replicator.replicatorStatusChanged repl newStatus s).1.status.level
          = .kC4Offline ∧
      Event.handleStopped ∉ (C4Replicator.replicatorStatusChanged repl newStatus s).2) ∧
    (s.statusFlag kC4Suspended = false →
      Event.handleStopped ∈ (C4Replicator.replicatorStatusChanged repl newStatus s).2 ∧
      ∃ a b, (C4Replicator.replicatorStatusChanged repl newStatus s).2 = a ++ b ∧
        Event.handleStopped ∈ a ∧
        (∀ st, Event.clientStatusCallback st ∉ a) ∧
        (∀ st, Event.clientStatusCallback st ∈ b →
           st.level = .kC4Stopped)) := by
  by_cases hsusp : s.statusFlag kC4Suspended = true
  · rw [statusChanged_stopped_suspended repl newStatus s hrep hlvl hsusp]
    refine ⟨rfl, by simp, fun _ => ⟨rfl, ?_⟩, fun hfalse => absurd hsusp (by simp [hfalse])⟩
    unfold C4Replicator.notifyStateChanged
    by_cases hcb : s.onStatusChanged = true <;> simp [hcb]
  · have hsusp2 : s.statusFlag kC4Suspended = false := by
      cases hb : s.statusFlag kC4Suspended
      · rfl
      · exact absurd hb hsusp
    rw [statusChanged_stopped_notSuspended repl newStatus s hrep hlvl hsusp2]
    refine ⟨rfl, by simp, fun htrue => absurd htrue (by simp [hsusp2]), fun _ => ?_⟩
    constructor
    · simp
    · refine ⟨[Event.lockAcquire, Event.engineTerminate repl, Event.handleStopped,
               Event.lockRelease],
              C4Replicator.notifyStateChanged
                { level := .kC4Stopped, progress := newStatus.progress,
                  error := newStatus.error, flags := s.status.flags }
                s.onStatusChanged ++ [Event.releaseSelfRetain], ?_, by simp, ?_, ?_⟩
      · simp
      · intro st
        simp
      · intro st hst
        unfold C4Replicator.notifyStateChanged at hst
        by_cases hcb : s.onStatusChanged = true
        · simp [hcb] at hst
          rw [hst]
        · simp [hcb] at hst

/-- C6: in the engine-status-change handler, whenever the self-retention
is released, the final published level is Stopped, the release is the
last event of the trace (in particular after the lock release and after
the client notification), and when the status-changed callback is
registered the notification does occur in the part of the trace strictly
before the release. -/
theorem selfRetain_release_only_after_notification (repl : Nat) (newStatus : C4ReplicatorStatus) (s : C4Replicator)
    (h : Event.releaseSelfRetain ∈
          (C4Replicator.replicatorStatusChanged repl newStatus s).2) :
    (C4Replicator.replicatorStatusChanged repl newStatus s).1.status.level
        = .kC4Stopped ∧
    ∃ a, (C4Replicator.replicatorStatusChanged repl newStatus s).2
            = a ++ [Event.releaseSelfRetain] ∧
      Event.releaseSelfRetain ∉ a ∧
      ((C4Replicator.replicatorStatusChanged repl newStatus s).1.onStatusChanged = true →
        Event.clientStatusCallback
          (C4Replicator.replicatorStatusChanged repl newStatus s).1.status ∈ a) := by
  by_cases hrep : s.replicator = some repl
  · by_cases hns : newStatus.level = .kC4Stopped
    · by_cases hsusp : s.statusFlag kC4Suspended = true
      · exfalso
        rw [statusChanged_stopped_suspended repl newStatus s hrep hns hsusp] at h
        unfold C4Replicator.notifyStateChanged at h
        by_cases hcb : s.onStatusChanged = true <;> simp [hcb] at h
      · have hsusp2 : s.statusFlag kC4Suspended = false := by
          cases hb : s.statusFlag kC4Suspended
          · rfl
          · exact absurd hb hsusp
        rw [statusChanged_stopped_notSuspended repl newStatus s hrep hns hsusp2]
        refine ⟨rfl, [Event.lockAcquire, Event.engineTerminate repl, Event.handleStopped,
          Event.lockRelease] ++
          C4Replicator.notifyStateChanged
            { level := .kC4Stopped, progress := newStatus.progress,
              error := newStatus.error, flags := s.status.flags }
            s.onStatusChanged, by simp, ?_, ?_⟩
        · unfold C4Replicator.notifyStateChanged
          by_cases hcb : s.onStatusChanged = true <;> simp [hcb]
        · intro hcb
          unfold C4Replicator.notifyStateChanged
          simp only at hcb
          simp [hcb]
    · exfalso
      rw [statusChanged_notStopped repl newStatus s hrep hns] at h
      unfold C4Replicator.notifyStateChanged at h
      by_cases hconn : C4ReplicatorActivityLevel.kC4Connecting.toNat < newStatus.level.toNat ∧
          s.status.level.toNat ≤ C4ReplicatorActivityLevel.kC4Connecting.toNat <;>
        by_cases hcb : s.onStatusChanged = true <;>
        simp [hconn, hcb] at h
  · exfalso
    rw [statusChanged_stale repl newStatus s hrep] at h
    simp at h

/-- C7: stop() with no live engine instance: if the level is not Stopped
it transitions directly to Stopped, clears the progress counters,
releases the self-retention and fires exactly one status-changed
notification (when the callback is registered); if the level is already
Stopped it changes nothing and fires no notification. -/
theorem stop_direct_transition_idempotent (s : C4Replicator) (h : s.replicator = none) :
    (s.status.level ≠ .kC4Stopped →
       (C4Replicator.stop s).1.status.level = .kC4Stopped ∧
       (C4Replicator.stop s).1.status.progress = ⟨0, 0⟩ ∧
       (C4Replicator.stop s).1.selfRetain = false ∧
       Event.releaseSelfRetain ∈ (C4Replicator.stop s).2 ∧
       (s.onStatusChanged = true →
          countStatusCallbacks (C4Replicator.stop s).2 = 1)) ∧
    (s.status.level = .kC4Stopped →
       (C4Replicator.stop s).1 = s ∧
       countStatusCallbacks (C4Replicator.stop s).2 = 0) := by
  unfold C4Replicator.stop
  simp only [h]
  by_cases hl : s.status.level = .kC4Stopped
  · refine ⟨fun hne => absurd hl hne, fun _ => ?_⟩
    simp [hl, countStatusCallbacks, Event.isStatusCallback]
  · refine ⟨fun _ => ?_, fun heq => absurd heq hl⟩
    refine ⟨by simp [hl], by simp [hl], by simp [hl], ?_, ?_⟩
    · unfold C4Replicator.notifyStateChanged
      by_cases hcb : s.onStatusChanged = true <;> simp [hl, hcb]
    · intro hcb
      unfold C4Replicator.notifyStateChanged
      simp [hl, hcb, countStatusCallbacks, Event.isStatusCallback]

/-- C9: pendingDocumentIDs returns (none slice, error set) when the
underlying query fails, returns (none slice, no error) when the query
succeeds with no pending documents, and the two outcomes are
distinguishable. -/
theorem pendingDocumentIDs_error_distinct_from_empty (s : C4Replicator) (replResult chkptResult : Except C4Error (List Nat)) :
    (∀ e, (match s.replicator with
           | some _ => replResult
           | none => chkptResult) = Except.error e →
       C4Replicator.pendingDocumentIDs s replResult chkptResult = (none, some e)) ∧
    ((match s.replicator with
      | some _ => replResult
      | none => chkptResult) = Except.ok [] →
       C4Replicator.pendingDocumentIDs s replResult chkptResult = (none, none)) ∧
    (∀ e : C4Error,
       ((none, some e) : Option (List Nat) × Option C4Error) ≠ (none, none)) := by
  refine ⟨?_, ?_, ?_⟩
  · intro e he
    unfold C4Replicator.pendingDocumentIDs
    cases hrep : s.replicator <;> rw [hrep] at he <;> dsimp only at he <;> simp [he]
  · intro he
    unfold C4Replicator.pendingDocumentIDs
    cases hrep : s.replicator <;> rw [hrep] at he <;> dsimp only at he <;> simp [he]
  · intro e
    simp

/-- C2 (witness): the amended dispatch equation instantiated at the
concrete two-revision batch. -/
theorem documentsEnded_partition_dispatch_witness :
    C4Replicator.replicatorDocumentsEnded 0 revsEx startedEx =
      (if incomingPartition revsEx ≠ [] then
        [Event.clientDocsEndedCallback false (incomingPartition revsEx)
          startedEx.options.callbackContext] else []) ++
      (if outgoingPartition revsEx ≠ [] then
        [Event.clientDocsEndedCallback true (outgoingPartition revsEx)
          startedEx.options.callbackContext] else []) :=
  documentsEnded_partition_dispatch 0 revsEx startedEx (by decide) (by decide)

/-- C5 (witness): the teardown conclusion at the concrete Busy controller
whose engine 0 reports Stopped. -/
theorem stoppedReport_teardown_and_hooks_witness :
    (C4Replicator.replicatorStatusChanged 0 stStoppedEx busyEx).1.replicator = none :=
  (stoppedReport_teardown_and_hooks 0 stStoppedEx busyEx (by decide) rfl).1

/-- C6 (witness): the conclusion at the concrete Busy controller whose
engine 0 reports Stopped, where the release does occur. -/
theorem selfRetain_release_only_after_notification_witness :
    (C4Replicator.replicatorStatusChanged 0 stStoppedEx busyEx).1.status.level
      = .kC4Stopped :=
  (selfRetain_release_only_after_notification 0 stStoppedEx busyEx (by decide)).1

/-- C7 (witness): the direct transition at the concrete engine-less Busy
controller. -/
theorem stop_direct_transition_idempotent_witness :
    (C4Replicator.stop noEngineBusyEx).1.status.level = .kC4Stopped :=
  ((stop_direct_transition_idempotent noEngineBusyEx rfl).1 (by decide)).1

/-- C9 (witness): the failure outcome at a concrete engine-less
controller whose checkpointer query fails. -/
theorem pendingDocumentIDs_error_distinct_from_empty_witness :
    C4Replicator.pendingDocumentIDs ctorEx (Except.ok [])
      (Except.error ⟨1, 2⟩) = (none, some ⟨1, 2⟩) :=
  (pendingDocumentIDs_error_distinct_from_empty ctorEx (Except.ok []) (Except.error ⟨1, 2⟩)).1 ⟨1, 2⟩ rfl
